import Mathlib

/-!
# Verification of the TasteTunerAI recipe generator core (`src/app.py`)

Shallow embedding of the two cores of `app.py`:

* the `/generate_recipe` handler (`generate_recipe`, lines 83–214): a
  two-step LLM pipeline — build an extraction prompt, call the external
  service, clean and JSON-parse the reply, build a generation prompt
  (structured or raw-text fallback), call the service again, render;
* the `/register` handler (`register`, lines 217–247): hash the password,
  insert into the `user` table, catch uniqueness conflicts, close the
  connection, then redirect.

External collaborators that are not code of this repository (the Gemini
client, Python's `json.loads`, werkzeug's `generate_password_hash`, the
sqlite engine) are modelled as abstract parameters or oracles; everything
else is translated line by line from `src/app.py`.

Python truthiness conventions (`if x:` on lists, optional strings and
optional ints) are embedded explicitly, since the prompt builder and the
input checks rely on them.
-/

namespace TasteTuner

/-- A flash message as emitted by Flask's `flash(message, category)`:
the pair `(message, category)`. -/
abbrev Flash := String × String

/-- Python truthiness of a list value (`if criteria.ingredients_available:`):
an empty list is falsy. -/
def truthyList (l : List String) : Bool := !l.isEmpty

/-- Python truthiness of an optional string (`if criteria.cuisine_preference:`):
`None` and the empty string are falsy. -/
def truthyOptStr : Option String → Bool
  | none => false
  | some s => !s.isEmpty

/-- Python truthiness of an optional integer (`if criteria.max_prep_time_minutes:`):
`None` and `0` are falsy. -/
def truthyOptInt : Option Int → Bool
  | none => false
  | some n => n != 0

/-- Python's `sep.join(list_of_strings)`, as used at lines 169 and 173 of
`app.py` (`', '.join(...)`). -/
def pyJoin (sep : String) : List String → String
  | [] => ""
  | [s] => s
  | s :: rest => s ++ sep ++ pyJoin sep rest

/-- The `RecipeCriteria` dataclass (`app.py` lines 17–23), at its declared
types: `ingredients_available : List[str]`, `cuisine_preference :
Optional[str]`, `dietary_restrictions : List[str]`,
`max_prep_time_minutes : Optional[int]`, `max_calories : Optional[int]`. -/
structure RecipeCriteria where
  ingredients_available : List String
  cuisine_preference : Option String
  dietary_restrictions : List String
  max_prep_time_minutes : Option Int
  max_calories : Option Int
deriving Repr, DecidableEq

/-- String rendering of an optional value reaching an f-string slot after a
truthiness guard: the guard guarantees `some`, and Python formats the
payload itself (`f"{criteria.max_prep_time_minutes}"` prints the int). -/
def fmtOptInt : Option Int → String
  | none => "None"
  | some n => toString n

/-- `fmtOptStr` mirrors `f"{criteria.cuisine_preference}"` after the
truthiness guard. -/
def fmtOptStr : Option String → String
  | none => "None"
  | some s => s

/-- The recipe-generation prompt built from a structured `RecipeCriteria`
(`app.py` lines 166–178): a fixed header line, then one line per truthy
field (string concatenation `generation_prompt += ...` is associative, so
the sequential build equals this single concatenation), then the fixed
closing instruction. -/
def generation_prompt (c : RecipeCriteria) : String :=
  "Generate a detailed recipe based on the following criteria:\n"
  ++ (if truthyList c.ingredients_available then
        "- Ingredients Available: " ++ pyJoin ", " c.ingredients_available ++ "\n"
      else "")
  ++ (if truthyOptStr c.cuisine_preference then
        "- Cuisine Preference: " ++ fmtOptStr c.cuisine_preference ++ "\n"
      else "")
  ++ (if truthyList c.dietary_restrictions then
        "- Dietary Restrictions: " ++ pyJoin ", " c.dietary_restrictions ++ "\n"
      else "")
  ++ (if truthyOptInt c.max_prep_time_minutes then
        "- Maximum Prep Time: " ++ fmtOptInt c.max_prep_time_minutes ++ " minutes\n"
      else "")
  ++ (if truthyOptInt c.max_calories then
        "- Maximum Calories: " ++ fmtOptInt c.max_calories ++ " kcal\n"
      else "")
  ++ "\nPlease provide cooking steps and nutritional information."

/-- Split a character list into its newline-separated lines; an input with
`k` newlines yields `k + 1` lines. -/
def splitNl : List Char → List (List Char)
  | [] => [[]]
  | c :: cs =>
    if c = '\n' then [] :: splitNl cs
    else (c :: (splitNl cs).headD []) :: (splitNl cs).tail

/-- The lines of a string, split on the newline character. -/
def strLines (s : String) : List (List Char) := splitNl s.data

/-- `(a ++ b).data = a.data ++ b.data`: string append concatenates the
underlying character lists. -/
theorem strData_append (a b : String) : (a ++ b).data = a.data ++ b.data := rfl

/-- `splitNl` always yields at least one line. -/
theorem splitNl_ne_nil : ∀ (l : List Char), splitNl l ≠ [] := by
  intro l
  cases l with
  | nil => simp [splitNl]
  | cons c cs =>
    by_cases hc : c = '\n' <;> simp [splitNl, hc]

/-- Prepending a newline-free chunk extends the first line of the rest. -/
theorem splitNl_append_no_nl :
    ∀ (a b : List Char), '\n' ∉ a →
      splitNl (a ++ b) = (a ++ (splitNl b).headD []) :: (splitNl b).tail := by
  intro a
  induction a with
  | nil =>
    intro b _
    rcases hb : splitNl b with _ | ⟨l, ls⟩
    · exact absurd hb (splitNl_ne_nil b)
    · simp [hb]
  | cons c cs ih =>
    intro b h
    have hc : ¬c = '\n' := fun hcn => h (hcn ▸ List.mem_cons_self c cs)
    have hcs := ih b (fun hm => h (List.mem_cons_of_mem c hm))
    simp [splitNl, hc, hcs]

/-- Pushing `.data` under a conditional. -/
theorem strData_ite (b : Prop) [Decidable b] (s t : String) :
    (if b then s else t).data = if b then s.data else t.data := by
  split <;> rfl

/-- A leading newline opens an empty line. -/
theorem splitNl_cons_nl (b : List Char) : splitNl ('\n' :: b) = [] :: splitNl b := by
  simp [splitNl]

set_option maxRecDepth 100000 in
set_option maxHeartbeats 3200000 in
/-- C1: for every structured `RecipeCriteria` whose field renderings are
newline-free, the generation prompt splits into: the fixed header line,
exactly one line per truthy field (ingredients comma-joined, cuisine
verbatim, restrictions comma-joined, prep time with a " minutes" suffix,
calories with a " kcal" suffix) and zero lines for each falsy field —
including a populated `0` or empty string, which Python truthiness treats
as absent — followed by the blank line and the fixed closing instruction. -/
theorem generation_prompt_line_per_field (c : RecipeCriteria)
    (hing : '\n' ∉ (pyJoin ", " c.ingredients_available).data)
    (hcui : '\n' ∉ (fmtOptStr c.cuisine_preference).data)
    (hdie : '\n' ∉ (pyJoin ", " c.dietary_restrictions).data)
    (hpre : '\n' ∉ (fmtOptInt c.max_prep_time_minutes).data)
    (hcal : '\n' ∉ (fmtOptInt c.max_calories).data) :
    strLines (generation_prompt c) =
      ["Generate a detailed recipe based on the following criteria:".data]
      ++ (if truthyList c.ingredients_available then
            [("- Ingredients Available: " ++ pyJoin ", " c.ingredients_available).data]
          else [])
      ++ (if truthyOptStr c.cuisine_preference then
            [("- Cuisine Preference: " ++ fmtOptStr c.cuisine_preference).data]
          else [])
      ++ (if truthyList c.dietary_restrictions then
            [("- Dietary Restrictions: " ++ pyJoin ", " c.dietary_restrictions).data]
          else [])
      ++ (if truthyOptInt c.max_prep_time_minutes then
            [("- Maximum Prep Time: " ++ fmtOptInt c.max_prep_time_minutes ++ " minutes").data]
          else [])
      ++ (if truthyOptInt c.max_calories then
            [("- Maximum Calories: " ++ fmtOptInt c.max_calories ++ " kcal").data]
          else [])
      ++ [[], "Please provide cooking steps and nutritional information.".data] := by
  cases hb1 : truthyList c.ingredients_available <;>
  cases hb2 : truthyOptStr c.cuisine_preference <;>
  cases hb3 : truthyList c.dietary_restrictions <;>
  cases hb4 : truthyOptInt c.max_prep_time_minutes <;>
  cases hb5 : truthyOptInt c.max_calories
  all_goals
    simp only [strLines, generation_prompt, hb1, hb2, hb3, hb4, hb5, if_true, if_false,
      strData_append]
    revert hing hcui hdie hpre hcal
    generalize (pyJoin ", " c.ingredients_available).data = I
    generalize (fmtOptStr c.cuisine_preference).data = C
    generalize (pyJoin ", " c.dietary_restrictions).data = D
    generalize (fmtOptInt c.max_prep_time_minutes).data = P
    generalize (fmtOptInt c.max_calories).data = K
    intro hing hcui hdie hpre hcal
    simp [splitNl, splitNl_append_no_nl, hing, hcui, hdie, hpre, hcal]

/-- Witness for C1, on the §8 scenario criteria (`ingredients_available =
["chicken", "rice"]`, no cuisine, `dietary_restrictions = ["vegan"]`,
`max_prep_time_minutes = 30`, no calorie cap): the prompt has lines for
ingredients, restrictions and prep time, and omits cuisine and calories. -/
theorem generation_prompt_line_per_field_witness :
    strLines (generation_prompt ⟨["chicken", "rice"], none, ["vegan"], some 30, none⟩) =
      ["Generate a detailed recipe based on the following criteria:".data]
      ++ [("- Ingredients Available: " ++ pyJoin ", " ["chicken", "rice"]).data]
      ++ []
      ++ [("- Dietary Restrictions: " ++ pyJoin ", " ["vegan"]).data]
      ++ [("- Maximum Prep Time: " ++ fmtOptInt (some 30) ++ " minutes").data]
      ++ []
      ++ [[], "Please provide cooking steps and nutritional information.".data] :=
  generation_prompt_line_per_field ⟨["chicken", "rice"], none, ["vegan"], some 30, none⟩
    (by decide) (by decide) (by decide) (by decide) (by decide)

/-! ## Cleaning of the extraction reply (`app.py` lines 138–141) -/

/-- The backtick character. -/
def backtick : Char := '\x60'

/-- The characters Python's `str.strip()` removes: space, tab, newline,
carriage return, vertical tab, form feed. -/
def isPyWs (c : Char) : Bool :=
  c = ' ' || c = '\t' || c = '\n' || c = '\r' || c = '\x0b' || c = '\x0c'

/-- Remove the longest suffix of characters satisfying `p`. -/
def dropEnd (p : Char → Bool) : List Char → List Char
  | [] => []
  | c :: l =>
    let r := dropEnd p l
    if r.isEmpty then (if p c then [] else [c]) else c :: r

/-- A prefix before a suffix that survives `dropEnd` is kept verbatim. -/
theorem dropEnd_append (p : Char → Bool) :
    ∀ (a b : List Char), dropEnd p b ≠ [] → dropEnd p (a ++ b) = a ++ dropEnd p b := by
  intro a
  induction a with
  | nil => intro b _; rfl
  | cons c cs ih =>
    intro b h
    have hcs := ih b h
    have hne : cs ++ dropEnd p b ≠ [] := by
      intro hcontra
      exact h (List.append_eq_nil.mp hcontra).2
    simp only [List.cons_append, dropEnd, List.append_eq]
    rw [hcs]
    simp [hne]

/-- Python's `str.strip(chars)`: remove the longest prefix and suffix of
characters satisfying `p`. -/
def stripChars (p : Char → Bool) (l : List Char) : List Char :=
  dropEnd p (l.dropWhile p)

/-- The heuristic cleanup applied to the raw extraction reply before JSON
parsing (`app.py` lines 139–141):
`llm_parsing_response_str.strip().strip(backtick).strip()`, then, if the
result starts with the literal `json`, those four characters are removed
(`json_str_cleaned[4:]`) and the remainder is stripped once more. -/
def cleanJsonStr (s : String) : String :=
  let t := stripChars isPyWs (stripChars (fun c => c = backtick) (stripChars isPyWs s.data))
  let t := if t.take 4 = ['j', 's', 'o', 'n'] then stripChars isPyWs (t.drop 4) else t
  String.mk t

/-- C8: a reply of the fenced form `` ```json ``, newline, `{...}`, newline,
`` ``` `` cleans to exactly the inner JSON object text: the whitespace
strip leaves it unchanged, the backtick strip removes both fences, the
`json` language tag and the surrounding newlines are then removed. -/
theorem cleanJsonStr_fenced_json (mid : List Char) :
    cleanJsonStr (String.mk
        ((List.replicate 3 backtick ++ ['j', 's', 'o', 'n', '\n'])
          ++ ('{' :: mid ++ ['}'])
          ++ ('\n' :: List.replicate 3 backtick)))
      = String.mk ('{' :: mid ++ ['}']) := by
  simp [cleanJsonStr, stripChars, dropEnd, isPyWs, backtick, List.dropWhile,
    dropEnd_append, List.replicate]

/-! ## JSON values and the criteria construction (`app.py` lines 143–150) -/

/-- A JSON value as produced by Python's `json.loads`: `null`, booleans,
integers, strings, arrays, objects. (JSON floats lie outside the modelled
fragment; no claim involves them.) -/
inductive Json where
  | null
  | bool (b : Bool)
  | int (n : Int)
  | str (s : String)
  | arr (elems : List Json)
  | obj (entries : List (String × Json))
deriving Repr

/-- `parsed_data.get(key)` on the dict produced by `json.loads`: the value
at `key`, where a duplicated key keeps its last occurrence (CPython's JSON
object semantics). -/
def dictGet? (entries : List (String × Json)) (k : String) : Option Json :=
  match entries with
  | [] => none
  | (k', v) :: rest =>
    match dictGet? rest k with
    | some w => some w
    | none => if k' = k then some v else none

/-- `parsed_data.get(key, default)`. -/
def dictGetD (entries : List (String × Json)) (k : String) (d : Json) : Json :=
  (dictGet? entries k).getD d

/-- The dynamically-typed result of `RecipeCriteria(...)` at lines 144–150:
the Python dataclass performs no validation, so each field stores whatever
JSON value `parsed_data.get` returned. -/
structure RawCriteria where
  ingredients_available : Json
  cuisine_preference : Json
  dietary_restrictions : Json
  max_prep_time_minutes : Json
  max_calories : Json
deriving Repr

/-- The Python exceptions the embedding distinguishes. -/
inductive PyError where
  | attributeError
  | typeError
  | nameError
deriving Repr, DecidableEq

/-- Lines 143–150: construct the criteria from the parsed JSON. If the
parsed value is not a JSON object, `parsed_data.get` raises
`AttributeError` (a non-dict has no `.get`), which lands in the
`except Exception` arm at lines 156–159. Defaults as in the source:
`[]` for the two list fields, `None` for the three bare `.get(key)`
calls. -/
def buildCriteria : Json → Except PyError RawCriteria
  | .obj entries => .ok
      { ingredients_available := dictGetD entries "ingredients_available" (.arr [])
        cuisine_preference := dictGetD entries "cuisine_preference" .null
        dietary_restrictions := dictGetD entries "dietary_restrictions" (.arr [])
        max_prep_time_minutes := dictGetD entries "max_prep_time_minutes" .null
        max_calories := dictGetD entries "max_calories" .null }
  | _ => .error .attributeError

/-- A correctly typed `cuisine_preference` reply value: a JSON string, or
`null` when unspecified. -/
def optJsonStr : Option String → Json
  | none => .null
  | some s => .str s

/-- A correctly typed `max_prep_time_minutes` / `max_calories` reply
value: a JSON integer, or `null` when unspecified. -/
def optJsonInt : Option Int → Json
  | none => .null
  | some n => .int n

/-- C3: when the parsed reply is a JSON object holding all five keys with
correctly typed values (lists of strings for the two list fields, a string
or null for the cuisine, an integer or null for the two bounds),
construction succeeds and every field of the constructed criteria equals
the corresponding JSON value exactly — a round trip. -/
theorem buildCriteria_round_trip (entries : List (String × Json))
    (is ds : List String) (cui : Option String) (pt cal : Option Int)
    (h1 : dictGet? entries "ingredients_available" = some (.arr (is.map .str)))
    (h2 : dictGet? entries "cuisine_preference" = some (optJsonStr cui))
    (h3 : dictGet? entries "dietary_restrictions" = some (.arr (ds.map .str)))
    (h4 : dictGet? entries "max_prep_time_minutes" = some (optJsonInt pt))
    (h5 : dictGet? entries "max_calories" = some (optJsonInt cal)) :
    buildCriteria (.obj entries) = .ok
      { ingredients_available := .arr (is.map .str)
        cuisine_preference := optJsonStr cui
        dietary_restrictions := .arr (ds.map .str)
        max_prep_time_minutes := optJsonInt pt
        max_calories := optJsonInt cal } := by
  simp [buildCriteria, dictGetD, h1, h2, h3, h4, h5]

/-- Witness for C3: the §8 scenario reply object round-trips. -/
theorem buildCriteria_round_trip_witness :
    buildCriteria (.obj
      [("ingredients_available", .arr [.str "chicken", .str "rice"]),
       ("cuisine_preference", .null),
       ("dietary_restrictions", .arr [.str "vegan"]),
       ("max_prep_time_minutes", .int 30),
       ("max_calories", .null)]) = .ok
      { ingredients_available := .arr (["chicken", "rice"].map .str)
        cuisine_preference := optJsonStr none
        dietary_restrictions := .arr (["vegan"].map .str)
        max_prep_time_minutes := optJsonInt (some 30)
        max_calories := optJsonInt none } :=
  buildCriteria_round_trip _ ["chicken", "rice"] ["vegan"] none (some 30) none
    rfl rfl rfl rfl rfl

/-! ## The two-call pipeline of `/generate_recipe` (`app.py` lines 83–214) -/

/-- Python truthiness of an arbitrary JSON-derived value: `None`, `False`,
`0`, `''`, `[]` and `{}` are falsy, everything else truthy. -/
def jtruthy : Json → Bool
  | .null => false
  | .bool b => b
  | .int n => n != 0
  | .str s => !s.isEmpty
  | .arr elems => !elems.isEmpty
  | .obj entries => !entries.isEmpty

/-- `', '.join(v)` on a JSON-derived value: a list joins its elements when
they are all strings (`TypeError` otherwise); a string joins its
characters; a dict joins its keys (first-occurrence order); anything else
raises `TypeError`. -/
def pyJoinJson (sep : String) : Json → Except PyError String
  | .arr elems => do
      let strs ← elems.mapM fun e =>
        match e with
        | .str s => Except.ok s
        | _ => Except.error PyError.typeError
      Except.ok (pyJoin sep strs)
  | .str s => Except.ok (pyJoin sep (s.data.map fun ch => String.mk [ch]))
  | .obj entries => Except.ok (pyJoin sep ((entries.map Prod.fst).eraseDups))
  | _ => Except.error PyError.typeError

/-- Rendering of a JSON-derived value in an f-string slot: `None`,
`True`/`False`, the decimal integer, or the string itself. A list or dict
would render through Python's `repr`; no claim formats a container, and
the embedding marks that case as outside the modelled fragment by raising
`typeError` (a declared model boundary, not a Python behaviour). -/
def fmtJson : Json → Except PyError String
  | .null => .ok "None"
  | .bool true => .ok "True"
  | .bool false => .ok "False"
  | .int n => .ok (toString n)
  | .str s => .ok s
  | .arr _ => .error .typeError
  | .obj _ => .error .typeError

/-- The structured-criteria generation prompt (`app.py` lines 166–178)
over the dynamically-typed construction result: one line per truthy field,
as in `generation_prompt`, with `', '.join` raising on ill-typed list
fields. -/
def buildStructuredPrompt (c : RawCriteria) : Except PyError String := do
  let p := "Generate a detailed recipe based on the following criteria:\n"
  let p ←
    if jtruthy c.ingredients_available then do
      let s ← pyJoinJson ", " c.ingredients_available
      pure (p ++ "- Ingredients Available: " ++ s ++ "\n")
    else pure p
  let p ←
    if jtruthy c.cuisine_preference then do
      let s ← fmtJson c.cuisine_preference
      pure (p ++ "- Cuisine Preference: " ++ s ++ "\n")
    else pure p
  let p ←
    if jtruthy c.dietary_restrictions then do
      let s ← pyJoinJson ", " c.dietary_restrictions
      pure (p ++ "- Dietary Restrictions: " ++ s ++ "\n")
    else pure p
  let p ←
    if jtruthy c.max_prep_time_minutes then do
      let s ← fmtJson c.max_prep_time_minutes
      pure (p ++ "- Maximum Prep Time: " ++ s ++ " minutes\n")
    else pure p
  let p ←
    if jtruthy c.max_calories then do
      let s ← fmtJson c.max_calories
      pure (p ++ "- Maximum Calories: " ++ s ++ " kcal\n")
    else pure p
  pure (p ++ "\nPlease provide cooking steps and nutritional information.")

/-- The extraction prompt (`app.py` lines 97–110), embedding the user
input verbatim. -/
def parsing_prompt (user_input : String) : String :=
  "Analyze the following user request for a recipe: '" ++ user_input ++ "'. "
  ++ "Extract the available ingredients, cuisine preference, dietary restrictions "
  ++ "(such as 'vegan', 'gluten-free', etc.), maximum preparation time in minutes, "
  ++ "and maximum calories mentioned in the request. "
  ++ "Respond STRICTLY with a JSON object containing the following keys: "
  ++ "'ingredients_available' (as a JSON list of strings), "
  ++ "'cuisine_preference' (as a JSON string or null if not mentioned), "
  ++ "'dietary_restrictions' (as a JSON list of strings or an empty list), "
  ++ "'max_prep_time_minutes' (as a JSON integer or null if not mentioned), "
  ++ "'max_calories' (as a JSON integer or null if not mentioned). "
  ++ "If a specific criterion isn't mentioned, use null for its value where appropriate (strings, integers) or an empty list for list types."
  ++ "Do not include any text before or after the JSON object."

/-- The raw-text fallback generation prompt (`app.py` lines 180–186),
embedding the original user input verbatim. -/
def raw_generation_prompt (criteria : String) : String :=
  "Please generate a detailed recipe based on the following user request: '"
  ++ criteria ++ "'. "
  ++ "Pay attention to any specified ingredients, desired cuisine, dietary restrictions "
  ++ "(like vegan, gluten-free), maximum preparation time, or calorie goals mentioned. "
  ++ "Provide cooking steps and nutritional information if possible."

/-- The outcome of one blocking `gemini_model.generate_content` call: the
call raises a communication/transport error, returns a response with no
parts (blocked / withheld content), or returns text. -/
inductive LLMOutcome where
  | raised
  | blocked
  | ok (text : String)
deriving Repr, DecidableEq

/-- One request's environment: the outcomes the external service produces
for the first (extraction) and second (generation) calls, and an oracle
for Python's `json.loads` — `none` when the text is not valid JSON
(`json.JSONDecodeError`), `some` of the parsed value otherwise. -/
structure GenEnv where
  first : LLMOutcome
  second : LLMOutcome
  jsonLoads : String → Option Json

/-- The page the handler finishes on: `redirect(url_for('index'))` or
`render_template('index.html', recipe=..., previous_input=...)`. -/
inductive Page where
  | redirectIndex
  | render (recipe : String) (previous_input : String)
deriving Repr, DecidableEq

/-- What one run of the handler did: the prompts sent to the external
service in order, the flashes emitted in order, and the final page. -/
structure GenResult where
  calls : List String
  flashes : List Flash
  page : Page
deriving Repr, DecidableEq

/-- The `criteria` variable after step 3: either the constructed dataclass
value or the raw user input fallback string. -/
inductive CriteriaVal where
  | structured (c : RawCriteria)
  | raw (s : String)

/-- Step 3 (`app.py` lines 134–163): for a truthy reply text, clean it and
parse as JSON; `JSONDecodeError` falls back to the raw user input with a
warning, any other construction exception falls back with a danger flash;
a falsy (empty) reply text falls back with its own warning. -/
def criteriaStep (jsonLoads : String → Option Json) (user_input text : String) :
    CriteriaVal × List Flash :=
  if !text.isEmpty then
    match jsonLoads (cleanJsonStr text) with
    | none =>
      (.raw user_input,
       [("Sorry, I had trouble understanding the structured details of your request. Proceeding with raw text.",
         "warning")])
    | some parsed =>
      match buildCriteria parsed with
      | .ok rc => (.structured rc, [])
      | .error _ =>
        (.raw user_input,
         [("An unexpected error occurred while processing your request details.", "danger")])
  else
    (.raw user_input,
     [("Could not get structured details from the request. Proceeding with raw text.", "warning")])

/-- Step 4 (`app.py` lines 165–186): `isinstance(criteria, RecipeCriteria)`
selects the structured prompt builder, otherwise the raw-text prompt. -/
def promptStep : CriteriaVal → Except PyError String
  | .structured rc => buildStructuredPrompt rc
  | .raw s => .ok (raw_generation_prompt s)

/-- Step 5 (`app.py` lines 190–208): `generated_recipe_text` starts as the
fixed placeholder; a raised call keeps it and flashes a danger message, a
blocked call keeps it and flashes a warning, a successful call replaces it
with the reply text. -/
def generationStep : LLMOutcome → String × List Flash
  | .raised =>
    ("Placeholder: Recipe generation failed.",
     [("An error occurred while communicating with the recipe generation service.", "danger")])
  | .blocked =>
    ("Placeholder: Recipe generation failed.",
     [("The recipe generation was blocked by safety filters. Please try a different request.", "warning")])
  | .ok t => (t, [])

/-- The `/generate_recipe` POST handler (`app.py` lines 83–214).
`modelAvailable` is whether Gemini configuration succeeded at startup
(`gemini_model` is not `None`); `form_input` is
`request.form.get('recipe_input')` (`none` when the field is missing).
`Except.error` means an exception escaped the handler. -/
def generate_recipe (modelAvailable : Bool) (env : GenEnv) (form_input : Option String) :
    Except PyError GenResult :=
  if !modelAvailable then
    .ok ⟨[], [("Recipe generation service is currently unavailable. Please try again later.", "danger")],
         .redirectIndex⟩
  else
    match form_input with
    | none => .ok ⟨[], [("Please enter your recipe request.", "warning")], .redirectIndex⟩
    | some user_input =>
      if user_input.isEmpty then
        .ok ⟨[], [("Please enter your recipe request.", "warning")], .redirectIndex⟩
      else
        let p1 := parsing_prompt user_input
        match env.first with
        | .raised =>
          .ok ⟨[p1],
               [("An error occurred while communicating with the recipe analysis service.", "danger")],
               .redirectIndex⟩
        | .blocked =>
          .ok ⟨[p1],
               [("Your request could not be processed due to safety filters. Please rephrase.", "warning")],
               .redirectIndex⟩
        | .ok text =>
          let cf := criteriaStep env.jsonLoads user_input text
          match promptStep cf.1 with
          | .error e => .error e
          | .ok p2 =>
            let gf := generationStep env.second
            .ok ⟨[p1, p2], cf.2 ++ gf.2, .render gf.1 user_input⟩

/-- C9: a missing or empty `recipe_input` field means no external call is
made (the call list is empty), the "Please enter your recipe request."
warning is the sole flash, and the handler redirects home without an
exception — for every service environment. -/
theorem generate_recipe_empty_input (env : GenEnv) (inp : Option String)
    (h : inp = none ∨ inp = some "") :
    generate_recipe true env inp =
      .ok ⟨[], [("Please enter your recipe request.", "warning")], .redirectIndex⟩ := by
  rcases h with h | h <;> subst h <;> rfl

/-- Witness for C9: a missing form field, with a service that would raise
if it were ever called. -/
theorem generate_recipe_empty_input_witness :
    generate_recipe true ⟨.raised, .raised, fun _ => none⟩ none =
      .ok ⟨[], [("Please enter your recipe request.", "warning")], .redirectIndex⟩ :=
  generate_recipe_empty_input ⟨.raised, .raised, fun _ => none⟩ none (Or.inl rfl)

/-- C4: when the extraction reply's cleaned text is not valid JSON
(`json.loads` raises `JSONDecodeError`), the request does not abort: the
pipeline flashes the "Proceeding with raw text." warning, builds the
generic raw-text prompt embedding the original user input, and still
issues the second call, rendering whatever the generation step yields. -/
theorem generate_recipe_parse_failure_falls_back (env : GenEnv) (s t : String)
    (hs : s.isEmpty = false) (ht : t.isEmpty = false)
    (hfirst : env.first = .ok t)
    (hparse : env.jsonLoads (cleanJsonStr t) = none) :
    generate_recipe true env (some s) =
      .ok ⟨[parsing_prompt s, raw_generation_prompt s],
           ("Sorry, I had trouble understanding the structured details of your request. Proceeding with raw text.",
             "warning") :: (generationStep env.second).2,
           .render (generationStep env.second).1 s⟩ := by
  simp [generate_recipe, hs, hfirst, criteriaStep, ht, hparse, promptStep]

/-- Witness for C4: a non-JSON reply `not json`, with the second call
succeeding. -/
theorem generate_recipe_parse_failure_falls_back_witness :
    generate_recipe true ⟨.ok "not json", .ok "A recipe.", fun _ => none⟩ (some "pasta") =
      .ok ⟨[parsing_prompt "pasta", raw_generation_prompt "pasta"],
           [("Sorry, I had trouble understanding the structured details of your request. Proceeding with raw text.",
             "warning")],
           .render "A recipe." "pasta"⟩ :=
  generate_recipe_parse_failure_falls_back ⟨.ok "not json", .ok "A recipe.", fun _ => none⟩
    "pasta" "not json" rfl rfl rfl rfl

/-- C10 (implicit): when the reply parses as JSON but constructing the
criteria raises a non-`JSONDecodeError` exception (the parsed value is not
an object, so `.get` raises `AttributeError`), the request still does not
abort: it falls back to the raw user input with a danger flash, builds the
generic prompt and issues the second call — the same fallback path as a
parse failure, with a different message. -/
theorem generate_recipe_construction_error_falls_back (env : GenEnv) (s t : String)
    (j : Json) (e : PyError)
    (hs : s.isEmpty = false) (ht : t.isEmpty = false)
    (hfirst : env.first = .ok t)
    (hparse : env.jsonLoads (cleanJsonStr t) = some j)
    (hbuild : buildCriteria j = .error e) :
    generate_recipe true env (some s) =
      .ok ⟨[parsing_prompt s, raw_generation_prompt s],
           ("An unexpected error occurred while processing your request details.", "danger")
             :: (generationStep env.second).2,
           .render (generationStep env.second).1 s⟩ := by
  simp [generate_recipe, hs, hfirst, criteriaStep, ht, hparse, hbuild, promptStep]

/-- Witness for C10: a reply that is valid JSON but a bare string, not an
object. -/
theorem generate_recipe_construction_error_falls_back_witness :
    generate_recipe true ⟨.ok "just words", .ok "A recipe.", fun _ => some (.str "just words")⟩
        (some "pasta") =
      .ok ⟨[parsing_prompt "pasta", raw_generation_prompt "pasta"],
           [("An unexpected error occurred while processing your request details.", "danger")],
           .render "A recipe." "pasta"⟩ :=
  generate_recipe_construction_error_falls_back
    ⟨.ok "just words", .ok "A recipe.", fun _ => some (.str "just words")⟩
    "pasta" "just words" (.str "just words") .attributeError rfl rfl rfl rfl rfl

/-- C5: within one request the two calls are strictly sequential. If the
first call raises, the run ends after one call with a danger flash and a
redirect; if the first call is blocked, likewise with a warning — in both
cases no generation call is issued. If the first call succeeded and the
criteria step merely degraded to the raw-text fallback, the second call is
issued (two calls recorded). -/
theorem generate_recipe_call_sequencing (env : GenEnv) (s : String)
    (hs : s.isEmpty = false) :
    (env.first = .raised →
      generate_recipe true env (some s) =
        .ok ⟨[parsing_prompt s],
             [("An error occurred while communicating with the recipe analysis service.", "danger")],
             .redirectIndex⟩)
    ∧ (env.first = .blocked →
      generate_recipe true env (some s) =
        .ok ⟨[parsing_prompt s],
             [("Your request could not be processed due to safety filters. Please rephrase.", "warning")],
             .redirectIndex⟩)
    ∧ (∀ t, env.first = .ok t →
        (criteriaStep env.jsonLoads s t).1 = .raw s →
        generate_recipe true env (some s) =
          .ok ⟨[parsing_prompt s, raw_generation_prompt s],
               (criteriaStep env.jsonLoads s t).2 ++ (generationStep env.second).2,
               .render (generationStep env.second).1 s⟩) := by
  refine ⟨fun h => ?_, fun h => ?_, fun t hf hraw => ?_⟩
  · simp [generate_recipe, hs, h]
  · simp [generate_recipe, hs, h]
  · simp [generate_recipe, hs, hf, hraw, promptStep]

/-- Witness for C5: a first call that raises ends the request after one
call. -/
theorem generate_recipe_call_sequencing_witness :
    generate_recipe true ⟨.raised, .raised, fun _ => none⟩ (some "x") =
      .ok ⟨[parsing_prompt "x"],
           [("An error occurred while communicating with the recipe analysis service.", "danger")],
           .redirectIndex⟩ :=
  (generate_recipe_call_sequencing ⟨.raised, .raised, fun _ => none⟩ "x" rfl).1 rfl

/-- C6: when the generation-step call is made and its response is
withheld (blocked), the rendered recipe equals the fixed placeholder text
"Placeholder: Recipe generation failed.", a user-visible warning is
flashed, and no exception surfaces (the handler returns `ok`). -/
theorem generate_recipe_generation_blocked (env : GenEnv) (s t p2 : String)
    (hs : s.isEmpty = false)
    (hfirst : env.first = .ok t)
    (hprompt : promptStep (criteriaStep env.jsonLoads s t).1 = .ok p2)
    (hsecond : env.second = .blocked) :
    generate_recipe true env (some s) =
      .ok ⟨[parsing_prompt s, p2],
           (criteriaStep env.jsonLoads s t).2 ++
             [("The recipe generation was blocked by safety filters. Please try a different request.",
               "warning")],
           .render "Placeholder: Recipe generation failed." s⟩ := by
  simp [generate_recipe, hs, hfirst, hprompt, hsecond, generationStep]

/-- Witness for C6: an empty extraction reply degrades to the raw-text
prompt, and the blocked generation call leaves the placeholder. -/
theorem generate_recipe_generation_blocked_witness :
    generate_recipe true ⟨.ok "", .blocked, fun _ => none⟩ (some "x") =
      .ok ⟨[parsing_prompt "x", raw_generation_prompt "x"],
           (criteriaStep (fun _ => none) "x" "").2 ++
             [("The recipe generation was blocked by safety filters. Please try a different request.",
               "warning")],
           .render "Placeholder: Recipe generation failed." "x"⟩ :=
  generate_recipe_generation_blocked ⟨.ok "", .blocked, fun _ => none⟩ "x" ""
    (raw_generation_prompt "x") rfl rfl rfl rfl

/-! ## Registration (`app.py` lines 217–247) and the user table -/

/-- A row of the `user` table (`init_db`, lines 63–69): autoincremented
integer id, unique non-null email, non-null password hash. -/
structure UserRow where
  id : Nat
  email : String
  password_hash : String
deriving Repr, DecidableEq

/-- The page a complete register handler run would finish on. -/
inductive RegPage where
  | redirectRegister
  | redirectLogin
  | renderRegister
deriving Repr, DecidableEq

/-- What one POST to `/register` did: the table afterwards, the flashes in
order, whether a database connection was opened and whether it was closed
before the handler returned or raised, and the response — `Except.error`
when an exception escaped the handler. -/
structure RegResult where
  db : List UserRow
  flashes : List Flash
  connOpened : Bool
  connClosed : Bool
  response : Except PyError RegPage
deriving Repr

/-- Outcome of `INSERT INTO user (email, password_hash) VALUES (?, ?)`
(line 231). -/
inductive InsertOutcome where
  | ok (db : List UserRow)
  | integrityError
  | otherError (msg : String)
deriving Repr

/-- The insert against the sqlite `UNIQUE` constraint on `email`: a
duplicate email raises `IntegrityError`; with no deletions ever performed,
`AUTOINCREMENT` assigns `row count + 1`. `fault` injects an arbitrary
other storage failure (the engine is external) with its rendered message,
to model the generic `except Exception` arm at lines 236–237. -/
def dbInsert (fault : Option String) (db : List UserRow) (email ph : String) :
    InsertOutcome :=
  match fault with
  | some msg => .otherError msg
  | none =>
    if db.any (fun r => r.email == email) then .integrityError
    else .ok (db ++ [⟨db.length + 1, email, ph⟩])

/-- The `/register` POST handler (`app.py` lines 220–245). `hashFn`
abstracts werkzeug's salted `generate_password_hash` (the plaintext is
never stored); `fault` injects a storage failure other than the
uniqueness conflict. After the `try/except/finally` — which always closes
the connection — line 242 evaluates `get_flashed_messages(...)`; that name
is never imported from flask in `app.py` (line 10 imports only `Flask,
render_template, request, redirect, url_for, flash, session`), so the
comparison raises `NameError` and the handler ends in an unhandled
exception on every path that reaches it. -/
def register (hashFn : String → String) (fault : Option String) (db : List UserRow)
    (email password : Option String) : RegResult :=
  let emailS := email.getD ""
  let passS := password.getD ""
  if emailS.isEmpty || passS.isEmpty then
    { db := db
      flashes := [("Email and password are required.", "danger")]
      connOpened := false
      connClosed := false
      response := .ok .redirectRegister }
  else
    let ph := hashFn passS
    match dbInsert fault db emailS ph with
    | .ok db' =>
      { db := db'
        flashes := [("Registration successful! Please login.", "success")]
        connOpened := true
        connClosed := true
        response := .error .nameError }
    | .integrityError =>
      { db := db
        flashes := [("Email already registered.", "danger")]
        connOpened := true
        connClosed := true
        response := .error .nameError }
    | .otherError msg =>
      { db := db
        flashes := [("An error occurred during registration: " ++ msg, "danger")]
        connOpened := true
        connClosed := true
        response := .error .nameError }

/-- C2 fails on the code: `get_flashed_messages` is referenced at line 242
but never imported, so even a successful registration (fresh email, insert
committed, success flash emitted) ends in an unhandled `NameError` instead
of a redirect to the login flow. This theorem evaluates the handler at the
failing input — empty table, email `a@b.com`, password `pw`. -/
theorem register_success_raises_name_error :
    register (fun p => "hash:" ++ p) none [] (some "a@b.com") (some "pw") =
      { db := [⟨1, "a@b.com", "hash:pw"⟩]
        flashes := [("Registration successful! Please login.", "success")]
        connOpened := true
        connClosed := true
        response := .error .nameError } := rfl

/-- C7, evaluated at its scenario: registering `a@b.com` twice. The first
call writes the row; the second hits the uniqueness conflict, which is
caught and flashed as "Email already registered." with no second row
written and exactly one row for that email remaining, and the connection
is closed on the success, conflict and injected-fault paths alike. But
"without crashing the request" fails: both requests end in the unhandled
`NameError` of line 242 (undefined `get_flashed_messages`). -/
theorem register_duplicate_email_conflict :
    (register (fun p => "hash:" ++ p) none [] (some "a@b.com") (some "pw")).db
        = [⟨1, "a@b.com", "hash:pw"⟩]
    ∧ register (fun p => "hash:" ++ p) none [⟨1, "a@b.com", "hash:pw"⟩]
        (some "a@b.com") (some "pw2") =
      { db := [⟨1, "a@b.com", "hash:pw"⟩]
        flashes := [("Email already registered.", "danger")]
        connOpened := true
        connClosed := true
        response := .error .nameError }
    ∧ ([⟨1, "a@b.com", "hash:pw"⟩] : List UserRow).countP (fun r => r.email == "a@b.com") = 1
    ∧ (register (fun p => "hash:" ++ p) (some "disk I/O error") [⟨1, "a@b.com", "hash:pw"⟩]
        (some "c@d.com") (some "pw")).connClosed = true :=
  ⟨rfl, rfl, rfl, rfl⟩

end TasteTuner
